import Mathlib

/-!
Verification of the Py2CppTransformer pipeline
(src/ReservoirEcho/reservoircpp_cpp/py2cpp_transformer.py).

The Python program is a line-oriented, regex-driven Python-to-C++ transcoder.
We embed each method of the `Py2CppTransformer` class as an executable Lean
function over `List Char` (the `data` of a `String`).  The Python `re`
substitutions are modelled by explicit left-to-right scanners that reproduce
the regex semantics (leftmost match, lazy/greedy groups, non-overlapping
successive matches) for the patterns that actually occur in the source.
Scanners use an explicit fuel argument equal to the input length; every step
consumes at least one character, so the fuel never runs out on the initial
call and the zero-fuel branch is unreachable.
-/

set_option maxRecDepth 16384
set_option maxHeartbeats 1600000

namespace Py2Cpp

/-- Python's `\s` character class (whitespace). -/
def isWsC (c : Char) : Bool := c.isWhitespace

/-- Python's `\w` character class (word characters). -/
def isWordC (c : Char) : Bool := c.isAlphanum || c = '_'

/-- Python `str.strip()`: drop whitespace from both ends. -/
def pyStrip (cs : List Char) : List Char :=
  ((cs.dropWhile isWsC).reverse.dropWhile isWsC).reverse

/-- Python `str.lower()` (ASCII). -/
def pyLower (cs : List Char) : List Char := cs.map Char.toLower

/-- Python `str.upper()` (ASCII). -/
def pyUpper (cs : List Char) : List Char := cs.map Char.toUpper

/-- Python `str.isdigit()`: nonempty and all digits. -/
def pyIsDigit (cs : List Char) : Bool := !cs.isEmpty && cs.all Char.isDigit

/-- Python `str.replace('.', '', 1)`: remove the first dot, if any. -/
def pyRemoveDotOnce : List Char → List Char
  | [] => []
  | c :: cs => if c = '.' then cs else c :: pyRemoveDotOnce cs

/-- Python `str.split(sep)` for a one-character separator (keeps empty parts). -/
def splitOnChar (sep : Char) : List Char → List (List Char)
  | [] => [[]]
  | c :: cs =>
    if c = sep then [] :: splitOnChar sep cs
    else
      match splitOnChar sep cs with
      | [] => [[c]]
      | l :: ls => (c :: l) :: ls

/-- Python `sep.join(parts)`. -/
def joinWith (sep : List Char) : List (List Char) → List Char
  | [] => []
  | [l] => l
  | l :: ls => l ++ sep ++ joinWith sep ls

/-- `code.split('\n')`. -/
def splitLines : List Char → List (List Char) := splitOnChar '\n'

/-- `'\n'.join(lines)`. -/
def joinLines : List (List Char) → List Char := joinWith ['\n']

/-- Whether `pat` occurs as a contiguous subsequence of `cs`. -/
def containsSeq (pat : List Char) : List Char → Bool
  | [] => pat.isEmpty
  | c :: cs => pat.isPrefixOf (c :: cs) || containsSeq pat cs

/-- `n` space characters (`' ' * n`). -/
def spacesL (n : Nat) : List Char := List.replicate n ' '

/-! ## Static mapping tables (constructor `__init__`) -/

/-- `self.python_types_to_cpp`: primitive-type mapping table. -/
def python_types_to_cpp : List (List Char × List Char) :=
  [("int".data, "int".data),
   ("float".data, "double".data),
   ("bool".data, "bool".data),
   ("str".data, "std::string".data),
   ("list".data, "std::vector".data),
   ("dict".data, "std::unordered_map".data),
   ("set".data, "std::unordered_set".data),
   ("tuple".data, "std::tuple".data),
   ("None".data, "nullptr".data)]

/-- `self.python_types_to_cpp.get(type_hint, 'auto')`. -/
def typeLookup (t : List Char) : List Char :=
  (List.lookup t python_types_to_cpp).getD "auto".data

/-- `self.lib_imports`: library-to-headers mapping table. -/
def lib_imports : List (List Char × List (List Char)) :=
  [("numpy".data, ["Eigen/Dense".data, "Eigen/Sparse".data, "reservoircpp/numpy.hpp".data]),
   ("scipy".data, ["reservoircpp/scipy.hpp".data]),
   ("random".data, ["random".data]),
   ("logging".data, ["iostream".data, "reservoircpp/logging.hpp".data]),
   ("os".data, ["filesystem".data]),
   ("time".data, ["chrono".data])]

/-! ## `transform_imports`

Python regex (MULTILINE, applied per line since it is anchored `^ ... $`):
  `^(?:from\s+(\S+)\s+)?import\s+(.+?)(?:\s+as\s+(\S+))?$`
The captured alias (group 3) is never used by the Python code, but the
optional `as`-clause still shortens the lazily-matched `names` group. -/

/-- Does `t` match `\s+as\s+\S+$` exactly (the optional alias clause)? -/
def asClauseMatch (t : List Char) : Bool :=
  let w1 := t.takeWhile isWsC
  if w1.isEmpty then false
  else
    let t1 := t.drop w1.length
    if "as".data.isPrefixOf t1 then
      let t2 := t1.drop 2
      let w2 := t2.takeWhile isWsC
      if w2.isEmpty then false
      else
        let t3 := t2.drop w2.length
        !t3.isEmpty && t3.all (fun c => !isWsC c)
    else false

/-- Lazy search (fuelled by `f`, starting at index `i`) for the earliest split
of `rest` into a nonempty `names` prefix followed by an alias clause. -/
def lazyNamesAux (rest : List Char) : Nat → Nat → List Char
  | 0, _ => rest
  | f + 1, i =>
    if i ≥ rest.length then rest
    else if asClauseMatch (rest.drop i) then rest.take i
    else lazyNamesAux rest f (i + 1)

/-- Lazy `(.+?)(?:\s+as\s+(\S+))?$`: `names` is the shortest nonempty prefix
such that the rest of the line is either empty or a full alias clause. -/
def lazyNamesSplit (rest : List Char) : List Char :=
  lazyNamesAux rest rest.length 1

/-- `from\s+(\S+)\s+` at the start of the line, returning the module and the
rest (which must then begin with `import`). -/
def importFromPart (l : List Char) : Option (List Char × List Char) :=
  if "from".data.isPrefixOf l then
    let t0 := l.drop 4
    let w1 := t0.takeWhile isWsC
    if w1.isEmpty then none
    else
      let t1 := t0.drop w1.length
      let m := t1.takeWhile (fun c => !isWsC c)
      if m.isEmpty then none
      else
        let t2 := t1.drop m.length
        let w2 := t2.takeWhile isWsC
        if w2.isEmpty then none else some (m, t2.drop w2.length)
  else none

/-- `import\s+(.+?)(?:\s+as\s+(\S+))?$`, returning the stripped names. -/
def importNamesPart (t : List Char) : Option (List Char) :=
  if "import".data.isPrefixOf t then
    let t0 := t.drop 6
    let w := t0.takeWhile isWsC
    if w.isEmpty then none
    else
      let rest := t0.drop w.length
      if rest.isEmpty then
        -- backtracking of the greedy `\s+` hands its last whitespace
        -- character to the lazy `(.+?)` group
        if w.length ≥ 2 then some (pyStrip (w.drop (w.length - 1))) else none
      else some (pyStrip (lazyNamesSplit rest))
  else none

/-- Match one line against the import regex; returns `(module, names)` with
`names` already stripped (`match.group(2).strip()`); `module` is `''` when the
`from` part is absent (`match.group(1) or ''`). -/
def importLineMatch (l : List Char) : Option (List Char × List Char) :=
  match importFromPart l with
  | some (m, t) => (importNamesPart t).map (fun ns => (m, ns))
  | none => (importNamesPart l).map (fun ns => (([] : List Char), ns))

/-- The include directives emitted for one matched import statement
(the body of the `for match in import_re.finditer(code)` loop). -/
def includesForMatch (module names : List Char) : List (List Char) :=
  match List.lookup module lib_imports with
  | some hs => hs.map (fun h => "#include <".data ++ h ++ ['>'])
  | none =>
    if !module.isEmpty then
      let mpath := module.map (fun c => if c = '.' then '/' else c)
      if names = "*".data then
        ["#include \"reservoircpp/".data ++ mpath ++ ".hpp\"".data]
      else
        (splitOnChar ',' names).map
          (fun it => "#include \"reservoircpp/".data ++ mpath ++ ['/'] ++ pyStrip it ++ ".hpp\"".data)
    else
      (splitOnChar ',' names).map
        (fun it => "#include \"".data ++ pyStrip it ++ ".hpp\"".data)

/-- All include directives collected over the unit, in match order. -/
def collectImportsL (cs : List Char) : List (List Char) :=
  (splitLines cs).foldr
    (fun l acc =>
      match importLineMatch l with
      | some (m, ns) => includesForMatch m ns ++ acc
      | none => acc) []

/-- `imports = list(set(imports))`: deduplicated include list (Python's set
order is unspecified; we keep the last occurrence of each directive). -/
def importIncludesL (cs : List Char) : List (List Char) :=
  (collectImportsL cs).dedup

/-- `code = import_re.sub('', code)`: matched lines become empty lines. -/
def stripImportsL (cs : List Char) : List Char :=
  joinLines ((splitLines cs).map (fun l => if (importLineMatch l).isSome then [] else l))

/-- The two fixed namespace-usage directives appended to the include block. -/
def usingBlockL : List Char :=
  "using namespace reservoircpp;\nusing namespace Eigen;\n\n".data

/-- `includes = '\n'.join(imports) + '\n\n'`. -/
def includesBlockL (cs : List Char) : List Char :=
  joinWith ['\n'] (importIncludesL cs) ++ ['\n', '\n']

/-- `transform_imports`, at the character-list level. -/
def transformImportsL (cs : List Char) : List Char :=
  includesBlockL cs ++ usingBlockL ++ stripImportsL cs

/-- `Py2CppTransformer.transform_imports`. -/
def transform_imports (code : String) : String :=
  String.mk (transformImportsL code.data)

/-! ## `preprocess_comments` -/

/-- Find the closing triple quote (lazy `(.*?)` of `"""(.*?)"""`, DOTALL):
returns the interior and the rest after the closing quotes. -/
def findTriple (q : Char) : List Char → Option (List Char × List Char)
  | [] => none
  | c :: cs =>
    if [q, q, q].isPrefixOf (c :: cs) then some ([], cs.drop 2)
    else
      match findTriple q cs with
      | some (inn, r) => some (c :: inn, r)
      | none => none

/-- One `re.sub` pass replacing `qqq(.*?)qqq` by `/**\n\1\n*/`. -/
def tripleScan (q : Char) : Nat → List Char → List Char
  | 0, cs => cs
  | _ + 1, [] => []
  | f + 1, c :: cs =>
    if [q, q, q].isPrefixOf (c :: cs) then
      match findTriple q (cs.drop 2) with
      | some (inn, rest) => "/**\n".data ++ inn ++ "\n*/".data ++ tripleScan q f rest
      | none => c :: tripleScan q f cs
    else c :: tripleScan q f cs

/-- The `#`-comment rewrite applied to one line. -/
def hashCommentLine (l : List Char) : List Char :=
  if l.contains '#' then
    let cp := l.takeWhile (fun c => c ≠ '#')
    cp ++ "// ".data ++ l.drop (cp.length + 1)
  else l

/-- `Py2CppTransformer.preprocess_comments` at the character-list level. -/
def preprocessCommentsL (cs : List Char) : List Char :=
  let c1 := tripleScan '"' cs.length cs
  let c2 := tripleScan '\'' c1.length c1
  joinLines ((splitLines c2).map hashCommentLine)

/-- `Py2CppTransformer.preprocess_comments`. -/
def preprocess_comments (code : String) : String :=
  String.mk (preprocessCommentsL code.data)

/-! ## `transform_functions`

Python regex (DOTALL): `def\s+(\w+)\s*\((.*?)\)(?:\s*->\s*(\w+))?\s*:`
replaced through the closure `transform_function`, whose loop over the
parameter list reassigns the local variable `name` (initially the function
name) in both the default-value branch and the annotation branch. -/

/-- `(?:\s*->\s*(\w+))?\s*:` after the closing parenthesis: returns the
optional return-type group and the rest after the colon. -/
def checkFuncTail (cs : List Char) : Option (Option (List Char) × List Char) :=
  let t1 := cs.dropWhile isWsC
  match t1 with
  | '-' :: '>' :: t2 =>
    let t3 := t2.dropWhile isWsC
    let w := t3.takeWhile isWordC
    if w.isEmpty then none
    else
      match (t3.drop w.length).dropWhile isWsC with
      | ':' :: rest => some (some w, rest)
      | _ => none
  | ':' :: rest => some (none, rest)
  | _ => none

/-- Lazy `(.*?)\)` with backtracking over successive closing parentheses:
grows the parameter text until the tail pattern matches. -/
def paramsAndTail : Nat → List Char → Option (List Char × Option (List Char) × List Char)
  | 0, _ => none
  | f + 1, cs =>
    let inside := cs.takeWhile (fun c => c ≠ ')')
    match cs.drop inside.length with
    | ')' :: after =>
      match checkFuncTail after with
      | some (ret, rest) => some (inside, ret, rest)
      | none =>
        match paramsAndTail f after with
        | some (ps2, ret, rest) => some (inside ++ ')' :: ps2, ret, rest)
        | none => none
    | _ => none

/-- One step of the parameter loop in `transform_function`; the state is the
current `name` variable (shadowed by parameter names) and the accumulated
`param_list`. -/
def funcParamStep (st : List Char × List (List Char)) (item : List Char) :
    List Char × List (List Char) :=
  let p := pyStrip item
  if p.contains '=' then
    let lhs := p.takeWhile (fun c => c ≠ '=')
    let rhs := p.drop (lhs.length + 1)
    let n := pyStrip lhs
    let d := pyStrip rhs
    let pt_d :=
      if pyIsDigit d then ("int".data, d)
      else if pyIsDigit (pyRemoveDotOnce d) then ("double".data, d)
      else if d = "True".data || d = "False".data then ("bool".data, pyLower d)
      else if d.head? = some '"' || d.head? = some '\'' then ("std::string".data, d)
      else ("auto".data, d)
    (n, st.2 ++ [pt_d.1 ++ [' '] ++ n ++ " = ".data ++ pt_d.2])
  else if p.contains ':' then
    let lhs := p.takeWhile (fun c => c ≠ ':')
    let hint := pyStrip (p.drop (lhs.length + 1))
    let n := pyStrip lhs
    (n, st.2 ++ [typeLookup hint ++ [' '] ++ n])
  else (st.1, st.2 ++ ["auto ".data ++ p])

/-- The replacement built by the Python closure `transform_function`. -/
def transform_function (nm params : List Char) (ret : Option (List Char)) : List Char :=
  let st :=
    if params.isEmpty then (nm, ([] : List (List Char)))
    else (splitOnChar ',' params).foldl funcParamStep (nm, [])
  let cppRet := match ret with | some r => typeLookup r | none => "auto".data
  cppRet ++ [' '] ++ st.1 ++ ['('] ++ joinWith ", ".data st.2 ++ ") \x7b".data

/-- Try the function-definition pattern at the current position. -/
def tryFuncAt (cs : List Char) : Option (List Char × List Char) :=
  if "def".data.isPrefixOf cs then
    let t0 := cs.drop 3
    let ws := t0.takeWhile isWsC
    if ws.isEmpty then none
    else
      let t1 := t0.drop ws.length
      let nm := t1.takeWhile isWordC
      if nm.isEmpty then none
      else
        match (t1.drop nm.length).dropWhile isWsC with
        | '(' :: t2 =>
          match paramsAndTail (t2.length + 1) t2 with
          | some (ps, ret, rest) => some (transform_function nm ps ret, rest)
          | none => none
        | _ => none
  else none

/-- The `function_re.sub` scan. -/
def funcScan : Nat → List Char → List Char
  | 0, cs => cs
  | _ + 1, [] => []
  | f + 1, c :: cs =>
    match tryFuncAt (c :: cs) with
    | some (rep, rest) => rep ++ funcScan f rest
    | none => c :: funcScan f cs

/-- `Py2CppTransformer.transform_functions` at the character-list level. -/
def transformFunctionsL (cs : List Char) : List Char := funcScan cs.length cs

/-- `Py2CppTransformer.transform_functions`. -/
def transform_functions (code : String) : String :=
  String.mk (transformFunctionsL code.data)

/-! ## `transform_classes`

`class_re` (DOTALL): `class\s+(\w+)(?:\s*\(([^)]*)\))?\s*:` replaced by the
closure `transform_class`, then `method_re` (MULTILINE):
`^(\s+)def\s+(\w+)` replaced by `\1public:\n\1auto \2`. -/

/-- The replacement built by the Python closure `transform_class`. -/
def transform_class (nm inh : List Char) : List Char :=
  let bases :=
    if inh.isEmpty then []
    else
      ((splitOnChar ',' inh).map pyStrip).filter (fun b => !b.isEmpty)
        |>.map (fun b => "public ".data ++ b)
  let inhStr := if bases.isEmpty then [] else ": ".data ++ joinWith ", ".data bases
  "class ".data ++ nm ++ inhStr ++ " \x7b".data

/-- Try the class-header pattern at the current position (the optional
inheritance group is attempted first, then skipped on failure). -/
def tryClassAt (cs : List Char) : Option (List Char × List Char) :=
  if "class".data.isPrefixOf cs then
    let t0 := cs.drop 5
    let ws := t0.takeWhile isWsC
    if ws.isEmpty then none
    else
      let t1 := t0.drop ws.length
      let nm := t1.takeWhile isWordC
      if nm.isEmpty then none
      else
        let t2 := t1.drop nm.length
        let t3 := t2.dropWhile isWsC
        match t3 with
        | '(' :: t4 =>
          let inh := t4.takeWhile (fun c => c ≠ ')')
          (match t4.drop inh.length with
           | ')' :: t5 =>
             (match t5.dropWhile isWsC with
              | ':' :: rest => some (transform_class nm inh, rest)
              | _ => none)
           | _ => none)
        | ':' :: rest => some (transform_class nm [], rest)
        | _ => none
  else none

/-- The `class_re.sub` scan. -/
def classScan : Nat → List Char → List Char
  | 0, cs => cs
  | _ + 1, [] => []
  | f + 1, c :: cs =>
    match tryClassAt (c :: cs) with
    | some (rep, rest) => rep ++ classScan f rest
    | none => c :: classScan f cs

/-- Try `^(\s+)def\s+(\w+)` at a line-start position; the replacement is
`\1public:\n\1auto \2` and the rest resumes after the method name. -/
def tryMethodAt (cs : List Char) : Option (List Char × List Char) :=
  let ws := cs.takeWhile isWsC
  if ws.isEmpty then none
  else
    let t1 := cs.drop ws.length
    if "def".data.isPrefixOf t1 then
      let t2 := t1.drop 3
      let w2 := t2.takeWhile isWsC
      if w2.isEmpty then none
      else
        let nm := (t2.drop w2.length).takeWhile isWordC
        if nm.isEmpty then none
        else
          some (ws ++ "public:\n".data ++ ws ++ "auto ".data ++ nm,
                (t2.drop w2.length).drop nm.length)
    else none

/-- The `method_re.sub` scan; the flag records whether the current position
is the start of a line (where MULTILINE `^` can match). -/
def methodScan : Nat → Bool → List Char → List Char
  | 0, _, cs => cs
  | _ + 1, _, [] => []
  | f + 1, atStart, c :: cs =>
    if atStart then
      match tryMethodAt (c :: cs) with
      | some (rep, rest) => rep ++ methodScan f false rest
      | none => c :: methodScan f (c = '\n') cs
    else c :: methodScan f (c = '\n') cs

/-- `Py2CppTransformer.transform_classes` at the character-list level. -/
def transformClassesL (cs : List Char) : List Char :=
  let c1 := classScan cs.length cs
  methodScan c1.length true c1

/-- `Py2CppTransformer.transform_classes`. -/
def transform_classes (code : String) : String :=
  String.mk (transformClassesL code.data)

/-! ## `transform_variables`

`assignment_re` (MULTILINE): `(\s*)(\w+)\s*=\s*(.+)$` replaced by the closure
`transform_assignment`.  A leading `(\s*)` that crosses a newline is captured
and re-emitted verbatim, so the pass is equivalent to a per-line scan in which
the indent group is the whitespace run immediately before the matched name.
Since `\w+` cannot contain a dot, a target such as `self.x` matches with
`var_name = 'x'`, and the `var_name.startswith('self.')` guard can never
fire. -/

/-- `infer_type` (the value is stripped on entry; all container shapes and
the fallback yield `auto`). -/
def infer_type (value : List Char) : List Char :=
  let v := pyStrip value
  if pyIsDigit v then "int".data
  else if pyIsDigit (pyRemoveDotOnce v) then "double".data
  else if v = "True".data || v = "False".data then "bool".data
  else if v.head? = some '"' || v.head? = some '\'' then "std::string".data
  else if v.head? = some '[' then "auto".data
  else if v.head? = some '\x7b' then "auto".data
  else if v.head? = some '(' then "auto".data
  else "auto".data

/-- The replacement built by the Python closure `transform_assignment`
(the `var_name.startswith('self.')` branch is unreachable because `\w+`
never contains a dot, so it is not modelled separately). -/
def transform_assignment (indent nm value : List Char) : List Char :=
  let t := infer_type value
  let v :=
    if t = "bool".data && (value = "True".data || value = "False".data) then pyLower value
    else value
  indent ++ t ++ [' '] ++ nm ++ " = ".data ++ v

/-- Try `(\s*)(\w+)\s*=\s*(.+)$` at the current position within a line;
the match always extends to the end of the line. -/
def tryAssignAt (cs : List Char) : Option (List Char) :=
  let ws1 := cs.takeWhile isWsC
  let r1 := cs.drop ws1.length
  let nm := r1.takeWhile isWordC
  if nm.isEmpty then none
  else
    let r2 := r1.drop nm.length
    let r3 := r2.dropWhile isWsC
    match r3 with
    | '=' :: rest =>
      if rest.isEmpty then none
      else
        let ws3 := rest.takeWhile isWsC
        -- greedy `\s*` after `=` backtracks one character when `.+` would
        -- otherwise be empty
        let value :=
          if ws3.length = rest.length then rest.drop (rest.length - 1)
          else rest.drop ws3.length
        some (transform_assignment ws1 nm value)
    | _ => none

/-- Left-to-right scan of one line for the leftmost assignment match. -/
def assignScan : Nat → List Char → List Char
  | 0, cs => cs
  | _ + 1, [] => []
  | f + 1, c :: cs =>
    match tryAssignAt (c :: cs) with
    | some out => out
    | none => c :: assignScan f cs

/-- `Py2CppTransformer.transform_variables` at the character-list level. -/
def transformVariablesL (cs : List Char) : List Char :=
  joinLines ((splitLines cs).map (fun l => assignScan l.length l))

/-- `Py2CppTransformer.transform_variables`. -/
def transform_variables (code : String) : String :=
  String.mk (transformVariablesL code.data)

/-! ## `transform_control_structures`

The substitutions are applied strictly in source order:
  1. `if\s+(.*?):`        to `if (\1) {`
  2. `elif\s+(.*?):`      to `} else if (\1) {`
  3. `else:`              to `} else {`
  4. `for\s+(.*?)\s+in\s+(.*?):` to `for (auto \1 : \2) {`
  5. `while\s+(.*?):`     to `while (\1) {`
then, only when some line of the resulting text matches `^( *)def`, the
single-pass indentation scan inserts closing braces. -/

/-- Lazy `(.*?):` — the condition runs to the first colon, and `.` cannot
cross a newline; returns the condition and the rest after the colon. -/
def findColonCond : List Char → Option (List Char × List Char)
  | [] => none
  | c :: cs =>
    if c = ':' then some ([], cs)
    else if c = '\n' then none
    else
      match findColonCond cs with
      | some (cond, rest) => some (c :: cond, rest)
      | none => none

/-- After a keyword: `\s+(.*?):` (the whitespace run is greedy and may span
newlines; the condition group may not). -/
def matchAfterKw (cs : List Char) : Option (List Char × List Char) :=
  match cs with
  | [] => none
  | c :: _ =>
    if isWsC c then findColonCond (cs.dropWhile isWsC)
    else none

/-- `re.sub` scan for a pattern `kw\s+(.*?):` with replacement `mkRepl cond`
(there is no word-boundary assertion, so the keyword also matches inside a
longer word, exactly as the Python regex does). -/
def kwColonSub (kw : List Char) (mkRepl : List Char → List Char) :
    Nat → List Char → List Char
  | 0, cs => cs
  | _ + 1, [] => []
  | f + 1, c :: cs =>
    if kw.isPrefixOf (c :: cs) then
      match matchAfterKw ((c :: cs).drop kw.length) with
      | some (cond, rest) => mkRepl cond ++ kwColonSub kw mkRepl f rest
      | none => c :: kwColonSub kw mkRepl f cs
    else c :: kwColonSub kw mkRepl f cs

/-- Literal substitution (`re.sub(r'else:', '} else {', code)`). -/
def litSub (pat rep : List Char) : Nat → List Char → List Char
  | 0, cs => cs
  | _ + 1, [] => []
  | f + 1, c :: cs =>
    if pat.isPrefixOf (c :: cs) then rep ++ litSub pat rep f ((c :: cs).drop pat.length)
    else c :: litSub pat rep f cs

/-- Lazy split of `(.*?)\s+in\s+` for the for-loop pattern: returns the loop
variable, then the iterable and rest found by `findColonCond`. -/
def findForSplit : Nat → List Char → Option (List Char × List Char × List Char)
  | 0, _ => none
  | _ + 1, [] => none
  | f + 1, c :: cs =>
    let w1 := (c :: cs).takeWhile isWsC
    let attempt :=
      if w1.isEmpty then none
      else
        let t1 := (c :: cs).drop w1.length
        if "in".data.isPrefixOf t1 then
          let t2 := t1.drop 2
          let w2 := t2.takeWhile isWsC
          if w2.isEmpty then none
          else
            match findColonCond (t2.drop w2.length) with
            | some (iter, rest) => some (([] : List Char), iter, rest)
            | none => none
        else none
    match attempt with
    | some r => some r
    | none =>
      if c = '\n' then none
      else
        match findForSplit f cs with
        | some (v, iter, rest) => some (c :: v, iter, rest)
        | none => none

/-- `re.sub` scan for `for\s+(.*?)\s+in\s+(.*?):`. -/
def forSub : Nat → List Char → List Char
  | 0, cs => cs
  | _ + 1, [] => []
  | f + 1, c :: cs =>
    let attempt :=
      if "for".data.isPrefixOf (c :: cs) then
        let t0 := (c :: cs).drop 3
        let ws := t0.takeWhile isWsC
        if ws.isEmpty then none
        else
          let t1 := t0.drop ws.length
          findForSplit (t1.length + 1) t1
      else none
    match attempt with
    | some (v, iter, rest) =>
      "for (auto ".data ++ v ++ " : ".data ++ iter ++ ") \x7b".data ++ forSub f rest
    | none => c :: forSub f cs

/-- `len(line) - len(line.lstrip(' '))`: the count of leading spaces
(spaces only, not tabs). -/
def leadingSpacesL (l : List Char) : Nat := (l.takeWhile (fun c => c = ' ')).length

/-- The closing braces inserted before a line whose indentation decreased:
`levels_to_close = (current_indent - leading_spaces) // 4` lines, each
consisting of `current_indent - 4` spaces and a closing brace (the loop body
never updates `current_indent`, so every emitted line uses the same indent). -/
def closeLinesL (cur lead : Nat) : List (List Char) :=
  if lead < cur then
    List.replicate ((cur - lead) / 4) (spacesL (cur - 4) ++ ['\x7d'])
  else []

/-- The end-of-input flush: `while current_indent > 0` decrement by 4 and
emit a closing brace at the decremented indent.  The fuel equals the initial
counter, which bounds the iteration count. -/
def endFlushAux : Nat → Nat → List (List Char)
  | 0, _ => []
  | f + 1, cur =>
    if 0 < cur then (spacesL (cur - 4) ++ ['\x7d']) :: endFlushAux f (cur - 4)
    else []

/-- The end-of-input flush of still-open blocks. -/
def endFlushL (cur : Nat) : List (List Char) := endFlushAux cur cur

/-- The indentation scan (`for line in lines` with `current_indent`):
closing braces are inserted before the line, then the line is appended and
the counter is set to the line's leading-space count; at the end the
remaining open blocks are flushed. -/
def scanLinesL : List (List Char) → Nat → List (List Char)
  | [], cur => endFlushL cur
  | l :: ls, cur => closeLinesL cur (leadingSpacesL l) ++ l :: scanLinesL ls (leadingSpacesL l)

/-- `^( *)def` (MULTILINE): some line consists of spaces followed by `def`. -/
def hasDefLine (cs : List Char) : Bool :=
  (splitLines cs).any (fun l => "def".data.isPrefixOf (l.dropWhile (fun c => c = ' ')))

/-- `Py2CppTransformer.transform_control_structures` at the character-list
level: the five substitutions, then the def-gated indentation scan. -/
def transformControlL (cs : List Char) : List Char :=
  let c1 := kwColonSub "if".data
    (fun cond => "if (".data ++ cond ++ ") \x7b".data) cs.length cs
  let c2 := kwColonSub "elif".data
    (fun cond => "\x7d else if (".data ++ cond ++ ") \x7b".data) c1.length c1
  let c3 := litSub "else:".data "\x7d else \x7b".data c2.length c2
  let c4 := forSub c3.length c3
  let c5 := kwColonSub "while".data
    (fun cond => "while (".data ++ cond ++ ") \x7b".data) c4.length c4
  if hasDefLine c5 then joinLines (scanLinesL (splitLines c5) 0) else c5

/-- `Py2CppTransformer.transform_control_structures`. -/
def transform_control_structures (code : String) : String :=
  String.mk (transformControlL code.data)

/-! ## `add_header_guards` and `transform` -/

/-- `os.path.basename`: the part after the last slash. -/
def basenameL (cs : List Char) : List Char :=
  (cs.reverse.takeWhile (fun c => c ≠ '/')).reverse

/-- The stem of `os.path.splitext`: drop the last extension, where leading
dots of the basename do not start an extension. -/
def splitextStemL (b : List Char) : List Char :=
  let lead := b.takeWhile (fun c => c = '.')
  let rest := b.drop lead.length
  if rest.contains '.' then lead ++ ((rest.reverse.dropWhile (fun c => c ≠ '.')).drop 1).reverse
  else b

/-- `Py2CppTransformer.add_header_guards` at the character-list level. -/
def addHeaderGuardsL (cs fname : List Char) : List Char :=
  let hn := pyUpper (splitextStemL (basenameL fname)) ++ "_HPP".data
  "#ifndef RESERVOIRCPP_".data ++ hn ++ "\n#define RESERVOIRCPP_".data ++ hn
    ++ "\n\n".data ++ cs ++ "\n\n#endif // RESERVOIRCPP_".data ++ hn ++ "\n".data

/-- `Py2CppTransformer.add_header_guards`. -/
def add_header_guards (code filename : String) : String :=
  String.mk (addHeaderGuardsL code.data filename.data)

/-- `Py2CppTransformer.transform`: the full pipeline.  An input that is
empty after stripping whitespace returns the empty string; header guards are
added only when the output filename ends in `.hpp`. -/
def transform (code filename : String) : String :=
  if pyStrip code.data = [] then ""
  else
    let c1 := preprocessCommentsL code.data
    let c2 := transformImportsL c1
    let c3 := transformFunctionsL c2
    let c4 := transformClassesL c3
    let c5 := transformVariablesL c4
    let c6 := transformControlL c5
    if ".hpp".data.isSuffixOf filename.data then String.mk (addHeaderGuardsL c6 filename.data)
    else String.mk c6

/-! ## Helper lemmas -/

/-- A line of `n` spaces has a leading-space count of `n`. -/
theorem leadingSpaces_spacesL (n : Nat) : leadingSpacesL (spacesL n) = n := by
  induction n with
  | zero => rfl
  | succ k ih =>
    simp only [spacesL, leadingSpacesL, List.replicate_succ, List.takeWhile_cons] at *
    simp [ih]

/-! ## Claim theorems -/

/-- Claim C1 (code_bug): on the input `x = 5\ny = "hi"\nif x > 0:\n    print(y)\n`
the pipeline does produce `int x = 5`, `std::string y = "hi"`, the rewritten
header `if (x > 0) {` and the body line, but it synthesizes NO closing
delimiter at all: the brace-closing scan runs only when some line matches
`^( *)def`, and this input has no such line.  The full output contains no
closing brace character. -/
theorem c1_scenario_b_eval :
    transform "x = 5\ny = \"hi\"\nif x > 0:\n    print(y)\n" "output.cpp" =
      "\n\nusing namespace reservoircpp;\nusing namespace Eigen;\n\nint x = 5\nstd::string y = \"hi\"\nif (x > 0) \x7b\n    print(y)\n" ∧
    ((transform "x = 5\ny = \"hi\"\nif x > 0:\n    print(y)\n" "output.cpp").data.contains '\x7d')
      = false :=
  ⟨by decide, by decide⟩

/-- Claim C2, counterexample: inserting a blank line into a block body does
change the synthesized closing delimiters.  With the blank line the scan
emits a closing brace before the blank line and a second one later (two in
total); without it only one is emitted. -/
theorem c2_blank_line_counterexample :
    transform_control_structures "def f():\n    a\n\n    b\n" =
      "def f():\n    a\n\x7d\n\n    b\n\x7d\n" ∧
    transform_control_structures "def f():\n    a\n    b\n" =
      "def f():\n    a\n    b\n\x7d\n" :=
  ⟨by decide, by decide⟩

/-- Claim C2, amended: a whitespace-only line whose leading-space count
equals `currentIndent` is passed through with the counter unchanged and no
closing delimiter; but the scan sets `currentIndent` to every line's
leading-space count, so an empty line while `currentIndent > 0` triggers the
immediate emission of `currentIndent / 4` closing delimiters and resets the
counter to 0. -/
theorem c2_blank_line_amended (ls : List (List Char)) (c : Nat) :
    scanLinesL (spacesL c :: ls) c = spacesL c :: scanLinesL ls c ∧
    (0 < c → scanLinesL ([] :: ls) c =
        List.replicate (c / 4) (spacesL (c - 4) ++ ['\x7d']) ++ [] :: scanLinesL ls 0) := by
  constructor
  · simp [scanLinesL, leadingSpaces_spacesL, closeLinesL]
  · intro h
    simp [scanLinesL, leadingSpacesL, closeLinesL, h]

/-- Witness for the amended Claim C2 at `c = 4`, `ls = []`. -/
theorem c2_blank_line_amended_w :
    (scanLinesL (spacesL 4 :: []) 4 = spacesL 4 :: scanLinesL [] 4) ∧
    (scanLinesL ([] :: []) 4 =
        List.replicate (4 / 4) (spacesL (4 - 4) ++ ['\x7d']) ++ [] :: scanLinesL [] 0) :=
  ⟨(c2_blank_line_amended [] 4).1, (c2_blank_line_amended [] 4).2 (by decide)⟩

/-- Claim C3, counterexample: when a decrease closes two levels (indent 8 to
0), both synthesized closing lines carry 4 spaces — the inner loop never
updates `current_indent`, so the indents are NOT strictly decreasing as the
claim states (the second line would have to sit at indent 0). -/
theorem c3_close_indent_counterexample :
    transform_control_structures "def f():\n    if a:\n        b\nc\n" =
      "def f():\n    if (a) \x7b\n        b\n    \x7d\n    \x7d\nc\n" ∧
    transform_control_structures "def f():\n    if a:\n        b\nc\n" ≠
      "def f():\n    if (a) \x7b\n        b\n    \x7d\n\x7d\nc\n" :=
  ⟨by decide, by decide⟩

/-- Claim C3, amended: when a line's leading-space count is smaller than
`currentIndent`, the scan inserts `(currentIndent − leading) / 4` standalone
closing-delimiter lines before it, every one of them indented by exactly
`currentIndent − 4` spaces (the same indent for all levels of one decrease),
and continues with the counter set to the line's leading-space count. -/
theorem c3_close_indent_amended (l : List Char) (ls : List (List Char)) (cur : Nat)
    (h : leadingSpacesL l < cur) :
    scanLinesL (l :: ls) cur =
      List.replicate ((cur - leadingSpacesL l) / 4) (spacesL (cur - 4) ++ ['\x7d'])
        ++ l :: scanLinesL ls (leadingSpacesL l) := by
  simp [scanLinesL, closeLinesL, h]

/-- Witness for the amended Claim C3 at the line `c`, `ls = []`, `cur = 8`. -/
theorem c3_close_indent_amended_w :
    scanLinesL ("c".data :: []) 8 =
      List.replicate ((8 - leadingSpacesL "c".data) / 4) (spacesL (8 - 4) ++ ['\x7d'])
        ++ "c".data :: scanLinesL [] (leadingSpacesL "c".data) :=
  c3_close_indent_amended "c".data [] 8 (by decide)

/-- Claim C4 (code_bug): on Scenario A's input the produced header is
`int b(int a, int b) {`, not `int add(int a, int b) {` — the parameter loop
of `transform_function` reassigns the local `name`, so the function name is
replaced by the last parameter's name — and no closing `}` follows, because
the brace-closing scan is gated on a literal `def` line which the function
rewrite has already consumed. -/
theorem c4_scenario_a_eval :
    transform "def add(a: int, b: int) -> int:\n    return a + b\n" "output.cpp" =
      "\n\nusing namespace reservoircpp;\nusing namespace Eigen;\n\nint b(int a, int b) \x7b\n    return a + b\n" ∧
    (containsSeq "int add(".data
      (transform "def add(a: int, b: int) -> int:\n    return a + b\n" "output.cpp").data)
      = false ∧
    ((transform "def add(a: int, b: int) -> int:\n    return a + b\n" "output.cpp").data.contains
      '\x7d') = false :=
  ⟨by decide, by decide, by decide⟩

/-- Claim C5 (code_bug): a line `elif x > 0:` is NOT rewritten to
`} else if (x > 0) {`.  The generic if-substitution runs first (line 182)
and, since `elif` contains `if`, it consumes the colon, producing
`elif (x > 0) {`; the elif rule on line 183 then never matches. -/
theorem c5_elif_eval :
    transform_control_structures "elif x > 0:" = "elif (x > 0) \x7b" ∧
    transform_control_structures "elif x > 0:" ≠ "\x7d else if (x > 0) \x7b" :=
  ⟨by decide, by decide⟩

/-- Claim C6, counterexample: for the input `import numpy\n` the Import
Resolver's output does not even contain the directive `#include <Eigen/Dense>`
— a bare import never consults the library table, because the regex leaves
`module` empty for the plain `import` form. -/
theorem c6_import_numpy_counterexample :
    containsSeq "#include <Eigen/Dense>".data (transform_imports "import numpy\n").data
      = false :=
  by decide

/-- Claim C6, amended: for the input `import numpy\n` the output begins with
the single directive `#include "numpy.hpp"` (the bare-import branch emits one
direct header per name), followed by the two fixed namespace-usage
directives, and the original import line is removed (leaving an empty line).
The three Eigen/reservoircpp headers would be emitted only for the
`from numpy import ...` form. -/
theorem c6_import_numpy_amended :
    transform_imports "import numpy\n" =
      "#include \"numpy.hpp\"\n\nusing namespace reservoircpp;\nusing namespace Eigen;\n\n\n" :=
  by decide

/-- Claim C7 (code_bug): the line `self.x = 5` is NOT passed through
unchanged.  The `\w+` target pattern cannot match the dotted name, so the
match starts at `x`, the `var_name.startswith('self.')` guard never fires,
and the inferred type token is inserted before the member name. -/
theorem c7_self_assignment_eval :
    transform_variables "self.x = 5" = "self.int x = 5" ∧
    transform_variables "self.x = 5" ≠ "self.x = 5" :=
  ⟨by decide, by decide⟩

/-- In a duplicate-free list, a member is counted exactly once. -/
theorem count_eq_one_of_nodup_mem {l : List (List Char)} {d : List Char}
    (hn : l.Nodup) (h : d ∈ l) : l.count d = 1 := by
  induction l with
  | nil => cases h
  | cons a t ih =>
    rcases List.mem_cons.mp h with rfl | ht
    · rw [List.count_cons_self, List.count_eq_zero.mpr (List.nodup_cons.mp hn).1]
    · have hne : d ≠ a := by
        rintro rfl
        exact (List.nodup_cons.mp hn).1 ht
      rw [List.count_cons_of_ne hne]
      exact ih (List.nodup_cons.mp hn).2 ht

/-- Claim C8 (confirmed): the emitted include list is `list(set(imports))`,
so any directive that some import statement resolves to occurs in it exactly
once, no matter how many import statements resolve to it. -/
theorem c8_dedup_unique (code : String) (d : List Char)
    (h : d ∈ collectImportsL code.data) :
    (importIncludesL code.data).count d = 1 :=
  count_eq_one_of_nodup_mem (List.nodup_dedup _) (List.mem_dedup.mpr h)

/-- Witness for Claim C8: two imports both resolving to the three numpy
headers; `#include <Eigen/Dense>` is collected twice but emitted once. -/
theorem c8_dedup_unique_w :
    "#include <Eigen/Dense>".data
        ∈ collectImportsL ("from numpy import a\nfrom numpy import b\n" : String).data ∧
    (importIncludesL ("from numpy import a\nfrom numpy import b\n" : String).data).count
        "#include <Eigen/Dense>".data = 1 :=
  ⟨by decide, c8_dedup_unique "from numpy import a\nfrom numpy import b\n" _ (by decide)⟩

/-- Claim C9 (confirmed): an input that is empty after stripping whitespace
makes `transform` return the empty string for every filename — in particular
no include-guard boilerplate is added even for a `.hpp` filename. -/
theorem c9_empty_input (code filename : String) (h : pyStrip code.data = []) :
    transform code filename = "" := by
  simp [transform, h]

/-- Witness for Claim C9: a whitespace-only input and a header filename. -/
theorem c9_empty_input_w :
    pyStrip ("   \n" : String).data = [] ∧ transform "   \n" "module.hpp" = "" :=
  ⟨by decide, c9_empty_input "   \n" "module.hpp" (by decide)⟩

/-- Claim C10 (confirmed): for every input, `transform_imports` prepends a
prefix ending in the two fixed namespace-usage directives to the
(import-stripped) unit: the output decomposes as some include prefix, a
newline, the `usingBlockL` directives, and the rest of the unit. -/
theorem c10_using_directives (code : String) :
    (∃ p : List Char, (transform_imports code).data =
        p ++ (['\n'] ++ usingBlockL) ++ stripImportsL code.data) ∧
    usingBlockL = "using namespace reservoircpp;\nusing namespace Eigen;\n\n".data := by
  refine ⟨⟨joinWith ['\n'] (importIncludesL code.data) ++ ['\n'], ?_⟩, rfl⟩
  show transformImportsL code.data = _
  simp [transformImportsL, includesBlockL, List.append_assoc]

end Py2Cpp
